import Mathlib

/-!
Verification development for the `uob-on-time` repository
(`src/uob_on_time/timetable.py` and `src/example.py`).

The repository drives a browser (via Selenium) to log into a university
timetable site, fill a filter form, and scrape an HTML results table into a
list of `Event` records.  We give a shallow embedding: the browser-side
environment (whether pages load, whether credentials are accepted, the rows
of the results table) is an explicit `Site` value, the driver's observable
state (current URL, text typed into inputs, selections performed on the
form's select elements) is a `DriverState`, and the three methods
`Timetable.login`, `Timetable.load` and `Timetable.scrape` are state-passing
functions translated line by line from the Python source.  Python exceptions
are modelled with an explicit `Exn` type: `noSuchElement` for Selenium's
NoSuchElementException and `valueError` for the ValueError raised by tuple
unpacking when a row does not have exactly eight cells.
-/

/-- URL of the online timetable filter form (`default_url` in the source). -/
def default_url : String :=
  "https://onlinetimetables.bham.ac.uk/Timetable/current_academic_year_2/default.aspx"

/-- URL of the online timetable site login (`login_url` in the source). -/
def login_url : String :=
  "https://onlinetimetables.bham.ac.uk/Timetable/current_academic_year_2/login.aspx"

/-- Default timeout period in seconds used by the WebDriverWait objects. -/
def timeout : Nat := 10

/-- URL of the online timetable page (`timetable_url` in the source). -/
def timetable_url : String :=
  "https://onlinetimetables.bham.ac.uk/Timetable/current_academic_year_2/showtimetable.aspx"

/-- An online timetable event: eight string fields, with the default values of
`Event.__init__` as Lean field defaults.  The Python parameter `end` is a Lean
keyword, so the field is called `end_`. -/
structure Event where
  date : String := ""
  activity : String := "Untitled activity"
  type : String := "Other"
  start : String := "9:00"
  end_ : String := "19:00"
  room : String := "TBC"
  staff : String := "TBC"
  department : String := "N/A"
deriving Repr, DecidableEq

/-- A table cell (`td` element) of the results page, holding its raw rendered
text. -/
structure Cell where
  raw : String
deriving Repr, DecidableEq

/-- Whitespace trimming: drop leading and trailing whitespace characters.
(Executable model of `String.trim`, written over the character list so that it
evaluates by kernel reduction.) -/
def trimText (s : String) : String :=
  ⟨((s.data.dropWhile Char.isWhitespace).reverse.dropWhile Char.isWhitespace).reverse⟩

/-- Model of Selenium's WebElement `.text` property, which returns the rendered
text of the element with leading and trailing whitespace trimmed. -/
def Cell.text (c : Cell) : String := trimText c.raw

/-- A table row (`tr` element) of the results page: whether it carries the
`columnTitles` class (header row) and its list of `td` cells. -/
structure Row where
  isColumnTitles : Bool := false
  cells : List Cell
deriving Repr, DecidableEq

/-- One selection action performed on a select element, either
`select_by_visible_text` or `select_by_value`. -/
inductive Selection where
  | byText (t : String)
  | byValue (v : String)
deriving Repr, DecidableEq

/-- The Python exceptions the embedded code can raise: Selenium's
NoSuchElementException, and the ValueError raised by unpacking an iterable of
the wrong length (`expected` names, `got` values). -/
inductive Exn where
  | noSuchElement (name : String)
  | valueError (expected got : Nat)
deriving Repr, DecidableEq

/-- Observable state of the Chrome driver: current URL, the text held by the
two login inputs, and the selection actions performed on the four select
elements of the filter form. -/
structure DriverState where
  url : String := ""
  tUserName : String := ""
  tPassword : String := ""
  lbWeeks : List Selection := []
  lbDays : List Selection := []
  dlPeriod : List Selection := []
  dlType : List Selection := []
deriving Repr, DecidableEq

/-- Model of `driver.get(url)`: the driver navigates to `url` and shows a fresh
page, so all inputs are empty and no selections have been performed. -/
def DriverState.get (u : String) : DriverState := { url := u }

/-- The mutable state of a `Timetable` object: its web driver and its `events`
list. -/
structure Timetable where
  driver : DriverState
  events : List Event
deriving Repr, DecidableEq

/-- The remote site and network, as the embedded code observes them:
whether the login page exposes its two inputs, which credentials lead to
navigation to `default_url` within the timeout, whether the `__doPostBack`
call makes the 'My Timetable' filter title appear within the timeout, whether
the filter form exposes its four select elements with all the options the code
selects and its submit button, whether submitting reaches `timetable_url`
within the timeout, and the rows the CSS selector
`.spreadsheet tr:not(.columnTitles)` would have to range over (all rows of the
results table, header included; the selector filters on the class). -/
structure Site where
  loginPageOk : Bool
  accepts : String → String → Bool
  postbackOk : Bool
  filterFormOk : Bool
  reachesTimetable : Bool
  resultRows : List Row

/-- Python `range(a, b)`: the naturals from `a` inclusive to `b` exclusive. -/
def pyRange (a b : Nat) : List Nat := List.range' a (b - a)

/-- The row loop of `Timetable.scrape`, lines 265-281 of the source: for each
row, unpack its cells as exactly eight `td` elements (Python tuple unpacking
raises ValueError otherwise, reporting expected and actual counts), build an
`Event` from their `.text` values in fixed left-to-right order, and append it
to the accumulated `events` list.  Returns the final `events` list and the
exception, if any, that aborted the loop; on an exception the appends already
performed persist, exactly as `self.events.append` mutations persist in
Python. -/
def scrapeRows : List Row → List Event → List Event × Option Exn
  | [], evs => (evs, none)
  | r :: rs, evs =>
    match r.cells with
    | [date_td, activity_td, type_td, start_td, end_td, room_td, staff_td, department_td] =>
      scrapeRows rs (evs ++ [{
        date := date_td.text,
        activity := activity_td.text,
        type := type_td.text,
        start := start_td.text,
        end_ := end_td.text,
        room := room_td.text,
        staff := staff_td.text,
        department := department_td.text }])
    | _ => (evs, some (Exn.valueError 8 r.cells.length))

/-- Model of `Timetable.scrape`: iterate the rows matched by
`.spreadsheet tr:not(.columnTitles)` and append one `Event` per row.  The
Python method returns `None`; we also surface the exception, if one was
raised, as the second component. -/
def Timetable.scrape (site : Site) (t : Timetable) : Timetable × Option Exn :=
  let p := scrapeRows (site.resultRows.filter (fun r => !r.isColumnTitles)) t.events
  ({ t with events := p.1 }, p.2)

/-- Model of `Timetable.login(username, password)`: navigate to `login_url`, clear and
fill the `tUserName` input, clear and fill the `tPassword` input (RETURN
submits the form), then wait up to the timeout for navigation to
`default_url`; the wait's outcome is returned as the boolean.  If the login
page does not expose its inputs, `find_element_by_name` raises
NoSuchElementException. -/
def Timetable.login (site : Site) (t : Timetable) (username password : String) :
    Timetable × Except Exn Bool :=
  let d0 := DriverState.get login_url
  if site.loginPageOk then
    let d1 := { d0 with tUserName := "" }
    let d2 := { d1 with tUserName := d1.tUserName ++ username }
    let d3 := { d2 with tPassword := "" }
    let d4 := { d3 with tPassword := d3.tPassword ++ password }
    if site.accepts username password then
      ({ t with driver := { d4 with url := default_url } }, Except.ok true)
    else
      ({ t with driver := d4 }, Except.ok false)
  else
    ({ t with driver := d0 }, Except.error (Exn.noSuchElement "tUserName"))

/-- Model of `Timetable.load()`: trigger the `__doPostBack` script and wait for the
'My Timetable' filter title (any exception in this first block, timeout
included, is caught and yields `False`); then select `*All Term Time` in the
weeks list by visible text and additionally select the values `' 1'`..`' 5'`
and `' 44'`..`' 52'` (Python `chain(range(1, 6), range(44, 53))`), select
`All Week` for days, `All Day (08:00 - 22:00)` for periods and
`List Timetable (with calendar dates)` for the type, click `bGetTimetable`,
and wait up to the timeout for navigation to `timetable_url`, returning the
wait's outcome.  A missing form element raises NoSuchElementException.  The
postback re-renders the filter form at `default_url`, so the selects start
with no selection performed. -/
def Timetable.load (site : Site) (t : Timetable) : Timetable × Except Exn Bool :=
  if site.postbackOk then
    let d0 := DriverState.get default_url
    if site.filterFormOk then
      let d1 := { d0 with lbWeeks := d0.lbWeeks ++ [Selection.byText "*All Term Time"] }
      let d2 := { d1 with lbWeeks := d1.lbWeeks ++
        ((pyRange 1 6 ++ pyRange 44 53).map (fun i => Selection.byValue (" " ++ toString i))) }
      let d3 := { d2 with lbDays := d2.lbDays ++ [Selection.byText "All Week"] }
      let d4 := { d3 with dlPeriod := d3.dlPeriod ++ [Selection.byText "All Day (08:00 - 22:00)"] }
      let d5 := { d4 with dlType := d4.dlType ++ [Selection.byText "List Timetable (with calendar dates)"] }
      if site.reachesTimetable then
        ({ t with driver := { d5 with url := timetable_url } }, Except.ok true)
      else
        ({ t with driver := d5 }, Except.ok false)
    else
      ({ t with driver := d0 }, Except.error (Exn.noSuchElement "lbWeeks"))
  else
    (t, Except.ok false)

/-- The browser automation resource owned by a `Timetable`: whether the Chrome
driver is currently open and how many times `driver.quit()` has been called on
it. -/
structure BrowserResource where
  acquired : Bool
  quitCount : Nat
deriving Repr, DecidableEq

/-- Model of `Timetable.__init__` acquiring the Chrome driver: one open driver, never yet
quit. -/
def initialResource : BrowserResource := { acquired := true, quitCount := 0 }

/-- The `Timetable` object as `__init__` leaves it: a fresh driver and an empty
`events` list. -/
def initialTimetable : Timetable := { driver := {}, events := [] }

/-- Model of `Timetable.__exit__`: close the Chrome driver with `driver.quit()`. -/
def Timetable.exitScope (r : BrowserResource) : BrowserResource :=
  { acquired := false, quitCount := r.quitCount + 1 }

/-- Python's `with Timetable() as t:` semantics, as used by `main` in
`src/example.py`: `__init__` acquires the driver, the body runs (finishing
normally or with an uncaught exception - no operation of the body has access
to the driver resource, since none of `login`, `load`, `scrape` or printing
calls `quit`), and `__exit__` runs exactly once on every exit path.
`__exit__` returns `None`, so a body exception propagates unchanged after the
driver is quit. -/
def withTimetable (body : Timetable → Timetable × Option Exn) :
    (Timetable × Option Exn) × BrowserResource :=
  let res := initialResource
  let out := body initialTimetable
  (out, Timetable.exitScope res)

/-- The record the specification describes for one results row: each of the
eight fields is the whitespace-trimmed raw text of the corresponding cell, in
fixed left-to-right order date, activity, type, start, end, room, staff,
department. -/
def eventOfRow (r : Row) : Event :=
  { date := trimText (r.cells.getD 0 ⟨""⟩).raw,
    activity := trimText (r.cells.getD 1 ⟨""⟩).raw,
    type := trimText (r.cells.getD 2 ⟨""⟩).raw,
    start := trimText (r.cells.getD 3 ⟨""⟩).raw,
    end_ := trimText (r.cells.getD 4 ⟨""⟩).raw,
    room := trimText (r.cells.getD 5 ⟨""⟩).raw,
    staff := trimText (r.cells.getD 6 ⟨""⟩).raw,
    department := trimText (r.cells.getD 7 ⟨""⟩).raw }

/-- A list of length eight is a literal eight-element list. -/
lemma list_length_eight {α : Type} (l : List α) (h : l.length = 8) :
    ∃ a1 a2 a3 a4 a5 a6 a7 a8, l = [a1, a2, a3, a4, a5, a6, a7, a8] := by
  rcases l with _ | ⟨a1, _ | ⟨a2, _ | ⟨a3, _ | ⟨a4, _ | ⟨a5, _ | ⟨a6, _ | ⟨a7, _ | ⟨a8, _ | ⟨a9, tl⟩⟩⟩⟩⟩⟩⟩⟩⟩ <;>
    first
      | exact ⟨a1, a2, a3, a4, a5, a6, a7, a8, rfl⟩
      | simp at h

/-- On a row with exactly eight cells, the loop body unpacks them, builds the
event of the row and appends it. -/
lemma scrapeRows_cons_eight (b : Bool) (c1 c2 c3 c4 c5 c6 c7 c8 : Cell)
    (rs : List Row) (evs : List Event) :
    scrapeRows (⟨b, [c1, c2, c3, c4, c5, c6, c7, c8]⟩ :: rs) evs =
      scrapeRows rs (evs ++ [eventOfRow ⟨b, [c1, c2, c3, c4, c5, c6, c7, c8]⟩]) := rfl

/-- On a row without exactly eight cells, the loop aborts with the unpacking
ValueError and appends nothing for that row. -/
lemma scrapeRows_cons_ne_eight (r : Row) (rs : List Row) (evs : List Event)
    (h : r.cells.length ≠ 8) :
    scrapeRows (r :: rs) evs = (evs, some (Exn.valueError 8 r.cells.length)) := by
  obtain ⟨b, cs⟩ := r
  rcases cs with _ | ⟨a1, _ | ⟨a2, _ | ⟨a3, _ | ⟨a4, _ | ⟨a5, _ | ⟨a6, _ | ⟨a7, _ | ⟨a8, _ | ⟨a9, tl⟩⟩⟩⟩⟩⟩⟩⟩⟩ <;>
    first
      | rfl
      | exact absurd rfl h

/-- The accumulator of the row loop only ever grows: the result on accumulator
`evs` is `evs` followed by what the loop produces from scratch, and the
exception outcome does not depend on the accumulator. -/
lemma scrapeRows_acc (rs : List Row) :
    ∀ evs : List Event,
      (scrapeRows rs evs).1 = evs ++ (scrapeRows rs []).1 ∧
        (scrapeRows rs evs).2 = (scrapeRows rs []).2 := by
  induction rs with
  | nil => intro evs; simp [scrapeRows]
  | cons r rs ih =>
    intro evs
    by_cases hc : r.cells.length = 8
    · obtain ⟨b, cs⟩ := r
      obtain ⟨a1, a2, a3, a4, a5, a6, a7, a8, rfl⟩ := list_length_eight cs hc
      rw [scrapeRows_cons_eight, scrapeRows_cons_eight]
      refine ⟨?_, ?_⟩
      · rw [(ih _).1, (ih ([] ++ _)).1]
        simp
      · rw [(ih _).2, (ih ([] ++ _)).2]
    · rw [scrapeRows_cons_ne_eight _ _ _ hc, scrapeRows_cons_ne_eight _ _ _ hc]
      simp

/-- When every row has exactly eight cells, the row loop appends exactly the
events of the rows, in order, and raises nothing. -/
lemma scrapeRows_all_eight (rs : List Row) (h8 : ∀ r ∈ rs, r.cells.length = 8) :
    ∀ evs : List Event, scrapeRows rs evs = (evs ++ rs.map eventOfRow, none) := by
  induction rs with
  | nil => intro evs; simp [scrapeRows]
  | cons r rs ih =>
    intro evs
    obtain ⟨b, cs⟩ := r
    obtain ⟨a1, a2, a3, a4, a5, a6, a7, a8, rfl⟩ :=
      list_length_eight cs (h8 ⟨b, cs⟩ (List.mem_cons_self _ _))
    rw [scrapeRows_cons_eight, ih (fun r hr => h8 r (List.mem_cons_of_mem _ hr))]
    simp

/-- When some row lacks exactly eight cells, the row loop ends in the
unpacking ValueError reporting a cell count other than eight, and every event
in the result either was already in the accumulator or is the event of an
eight-cell row. -/
lemma scrapeRows_bad (rs : List Row) :
    ∀ evs : List Event, (∃ r ∈ rs, r.cells.length ≠ 8) →
      (∃ k, k ≠ 8 ∧ (scrapeRows rs evs).2 = some (Exn.valueError 8 k)) ∧
        ∀ e ∈ (scrapeRows rs evs).1,
          e ∈ evs ∨ ∃ r ∈ rs, r.cells.length = 8 ∧ e = eventOfRow r := by
  induction rs with
  | nil => intro evs hbad; simp at hbad
  | cons r rs ih =>
    intro evs hbad
    by_cases hc : r.cells.length = 8
    · obtain ⟨b, cs⟩ := r
      obtain ⟨a1, a2, a3, a4, a5, a6, a7, a8, rfl⟩ := list_length_eight cs hc
      have hbad' : ∃ r ∈ rs, r.cells.length ≠ 8 := by
        obtain ⟨r0, hr0, hne⟩ := hbad
        rcases List.mem_cons.mp hr0 with h | h
        · exact absurd (h ▸ hc) hne
        · exact ⟨r0, h, hne⟩
      rw [scrapeRows_cons_eight]
      obtain ⟨herr, hmem⟩ := ih (evs ++ [eventOfRow _]) hbad'
      refine ⟨herr, fun e he => ?_⟩
      rcases hmem e he with h | ⟨r', hr', h8', he'⟩
      · rcases List.mem_append.mp h with h | h
        · exact Or.inl h
        · refine Or.inr ⟨_, List.mem_cons_self _ _, hc, ?_⟩
          simpa using h
      · exact Or.inr ⟨r', List.mem_cons_of_mem _ hr', h8', he'⟩
    · rw [scrapeRows_cons_ne_eight _ _ _ hc]
      exact ⟨⟨r.cells.length, hc, rfl⟩, fun e he => Or.inl he⟩

/-- The one-row results page of the spec's scenario: one header row and one
data row whose eight cells read '3 Oct 2024', 'Algorithms Lecture', 'Lecture',
'9:00', '10:00', 'G3', 'Dr. Smith', 'Computer Science'. -/
def scenarioSite : Site :=
  { loginPageOk := true, accepts := fun _ _ => true, postbackOk := true,
    filterFormOk := true, reachesTimetable := true,
    resultRows :=
      [{ isColumnTitles := true, cells := [] },
       { cells := [⟨"3 Oct 2024"⟩, ⟨"Algorithms Lecture"⟩, ⟨"Lecture"⟩, ⟨"9:00"⟩,
                   ⟨"10:00"⟩, ⟨"G3"⟩, ⟨"Dr. Smith"⟩, ⟨"Computer Science"⟩] }] }

/-- A results page with a header row and zero data rows. -/
def emptySite : Site :=
  { loginPageOk := true, accepts := fun _ _ => true, postbackOk := true,
    filterFormOk := true, reachesTimetable := true,
    resultRows := [{ isColumnTitles := true, cells := [] }] }

/-- A results page whose single data row has only seven cells. -/
def badSite : Site :=
  { loginPageOk := true, accepts := fun _ _ => true, postbackOk := true,
    filterFormOk := true, reachesTimetable := true,
    resultRows :=
      [{ isColumnTitles := true, cells := [] },
       { cells := [⟨"3 Oct 2024"⟩, ⟨"Algorithms Lecture"⟩, ⟨"Lecture"⟩, ⟨"9:00"⟩,
                   ⟨"10:00"⟩, ⟨"G3"⟩, ⟨"Dr. Smith"⟩] }] }

/-- C1: on a successful scrape (every non-header row has exactly eight cells),
the events appended by `Timetable.scrape` are, row for row and in order,
exactly the records whose eight fields are the whitespace-trimmed texts of the
row's eight cells in fixed left-to-right order date, activity, type, start,
end, room, staff, department. -/
theorem scrape_fields_are_trimmed_cells (site : Site) (t : Timetable)
    (h8 : ∀ r ∈ site.resultRows.filter (fun r => !r.isColumnTitles), r.cells.length = 8) :
    (Timetable.scrape site t).1.events =
      t.events ++ (site.resultRows.filter (fun r => !r.isColumnTitles)).map eventOfRow := by
  simp [Timetable.scrape, scrapeRows_all_eight _ h8 t.events]

/-- Witness for C1: the spec's one-row scenario yields exactly one record with
those eight values in that order. -/
theorem scrape_fields_are_trimmed_cells_witness :
    (Timetable.scrape scenarioSite initialTimetable).1.events =
      [{ date := "3 Oct 2024", activity := "Algorithms Lecture", type := "Lecture",
         start := "9:00", end_ := "10:00", room := "G3", staff := "Dr. Smith",
         department := "Computer Science" }] := by
  have h := scrape_fields_are_trimmed_cells scenarioSite initialTimetable (by decide)
  rw [h]
  decide

/-- C2: on a successful scrape, the number of records produced equals the
number of non-header rows on the results page, and no exception is raised. -/
theorem scrape_count_eq_rows (site : Site) (t : Timetable)
    (h8 : ∀ r ∈ site.resultRows.filter (fun r => !r.isColumnTitles), r.cells.length = 8) :
    (Timetable.scrape site t).1.events.length =
        t.events.length + (site.resultRows.filter (fun r => !r.isColumnTitles)).length ∧
      (Timetable.scrape site t).2 = none := by
  have h := scrapeRows_all_eight _ h8 t.events
  constructor
  · simp [Timetable.scrape, h]
  · simp [Timetable.scrape, h]

/-- Witness for C2: a results page with zero data rows yields an empty record
sequence without error. -/
theorem scrape_count_eq_rows_witness :
    (Timetable.scrape emptySite initialTimetable).1.events.length =
        initialTimetable.events.length +
          (emptySite.resultRows.filter (fun r => !r.isColumnTitles)).length ∧
      (Timetable.scrape emptySite initialTimetable).2 = none :=
  scrape_count_eq_rows emptySite initialTimetable (by decide)

/-- C3: when some non-header row does not have exactly eight cells,
`Timetable.scrape` propagates the cell-count mismatch (a ValueError reporting
the expected count eight against the actual count), and every record it holds
afterwards either predates the call or is the faithful record of an eight-cell
row - no malformed record is produced. -/
theorem scrape_bad_row_fails (site : Site) (t : Timetable)
    (hbad : ∃ r ∈ site.resultRows.filter (fun r => !r.isColumnTitles), r.cells.length ≠ 8) :
    (∃ k, k ≠ 8 ∧ (Timetable.scrape site t).2 = some (Exn.valueError 8 k)) ∧
      ∀ e ∈ (Timetable.scrape site t).1.events,
        e ∈ t.events ∨ ∃ r ∈ site.resultRows.filter (fun r => !r.isColumnTitles),
          r.cells.length = 8 ∧ e = eventOfRow r := by
  obtain ⟨herr, hmem⟩ := scrapeRows_bad _ t.events hbad
  constructor
  · obtain ⟨k, hk, h⟩ := herr
    exact ⟨k, hk, by simpa [Timetable.scrape] using h⟩
  · intro e he
    exact hmem e (by simpa [Timetable.scrape] using he)

/-- Witness for C3: a single seven-cell row makes `scrape` report the mismatch
(expected eight, got seven) and produce no record. -/
theorem scrape_bad_row_fails_witness :
    (∃ k, k ≠ 8 ∧ (Timetable.scrape badSite initialTimetable).2 = some (Exn.valueError 8 k)) ∧
      ∀ e ∈ (Timetable.scrape badSite initialTimetable).1.events,
        e ∈ initialTimetable.events ∨
          ∃ r ∈ badSite.resultRows.filter (fun r => !r.isColumnTitles),
            r.cells.length = 8 ∧ e = eventOfRow r :=
  scrape_bad_row_fails badSite initialTimetable (by decide)

/-- A site whose login page is intact but which accepts no credentials: the
post-login wait always times out. -/
def wrongCredSite : Site :=
  { loginPageOk := true, accepts := fun _ _ => false, postbackOk := true,
    filterFormOk := true, reachesTimetable := true, resultRows := [] }

/-- A site on which the submitted filter form never reaches the results URL
within the timeout. -/
def timeoutSite : Site :=
  { loginPageOk := true, accepts := fun _ _ => true, postbackOk := true,
    filterFormOk := true, reachesTimetable := false, resultRows := [] }

/-- The method `Timetable.login` reads nothing of the prior `Timetable` state except its
`events` list (its first action navigates the driver to a fresh login page):
two states with the same events log in identically. -/
lemma login_events_only (site : Site) (t1 t2 : Timetable) (u p : String)
    (h : t1.events = t2.events) :
    Timetable.login site t1 u p = Timetable.login site t2 u p := by
  obtain ⟨d1, e1⟩ := t1
  obtain ⟨d2, e2⟩ := t2
  simp only at h
  subst h
  rfl

/-- C4: with wrong credentials, `login` returns the boolean `False` rather
than raising, leaves the events untouched, has re-navigated to the login page
and cleared both inputs before typing (so they hold exactly the credentials
just typed), and the session remains usable: a subsequent `login` on the
resulting state behaves exactly as on any state with the same events, i.e. as
a fresh attempt. -/
theorem login_wrong_credentials (site : Site) (t : Timetable) (u p : String)
    (hok : site.loginPageOk = true) (hbad : site.accepts u p = false) :
    ∃ t' : Timetable,
      Timetable.login site t u p = (t', Except.ok false) ∧
        t'.events = t.events ∧
        t'.driver.url = login_url ∧
        t'.driver.tUserName = u ∧ t'.driver.tPassword = p ∧
        ∀ (u2 p2 : String) (t2 : Timetable), t2.events = t'.events →
          Timetable.login site t2 u2 p2 = Timetable.login site t' u2 p2 := by
  have hlogin : Timetable.login site t u p =
      ({ t with driver :=
          { url := login_url, tUserName := u, tPassword := p } }, Except.ok false) := by
    unfold Timetable.login
    rw [hok, hbad]
    rfl
  exact ⟨_, hlogin, rfl, rfl, rfl, rfl,
    fun u2 p2 t2 h2 => login_events_only site t2 _ u2 p2 h2⟩

/-- Witness for C4: a concrete rejected login attempt. -/
theorem login_wrong_credentials_witness :
    ∃ t' : Timetable,
      Timetable.login wrongCredSite initialTimetable "abc123" "hunter2" =
          (t', Except.ok false) ∧
        t'.events = initialTimetable.events ∧
        t'.driver.url = login_url ∧
        t'.driver.tUserName = "abc123" ∧ t'.driver.tPassword = "hunter2" ∧
        ∀ (u2 p2 : String) (t2 : Timetable), t2.events = t'.events →
          Timetable.login wrongCredSite t2 u2 p2 =
            Timetable.login wrongCredSite t' u2 p2 :=
  login_wrong_credentials wrongCredSite initialTimetable "abc123" "hunter2" rfl rfl

/-- C5: when the filter form was reached and filled but the results URL is not
reached within the timeout, `load` returns the boolean `False` (it does not
raise) and leaves the events list unchanged - a failed load never partially
populates the record sequence. -/
theorem load_timeout_returns_false (site : Site) (t : Timetable)
    (hpb : site.postbackOk = true) (hff : site.filterFormOk = true)
    (hreach : site.reachesTimetable = false) :
    (Timetable.load site t).2 = Except.ok false ∧
      (Timetable.load site t).1.events = t.events := by
  unfold Timetable.load
  rw [hpb, hff, hreach]
  exact ⟨rfl, rfl⟩

/-- Witness for C5: a concrete timed-out load returns `False` and leaves the
empty events list empty. -/
theorem load_timeout_returns_false_witness :
    (Timetable.load timeoutSite initialTimetable).2 = Except.ok false ∧
      (Timetable.load timeoutSite initialTimetable).1.events = initialTimetable.events :=
  load_timeout_returns_false timeoutSite initialTimetable rfl rfl rfl

/-- C6: however the body of the `with Timetable()` scope ends - normally or
with an uncaught exception - the browser resource is released exactly once
(one `quit`, driver no longer acquired), and a body exception is not
swallowed: the body's outcome is returned unchanged. -/
theorem browser_released_exactly_once (body : Timetable → Timetable × Option Exn) :
    ((withTimetable body).2.quitCount = 1 ∧ (withTimetable body).2.acquired = false) ∧
      (withTimetable body).1 = body initialTimetable :=
  ⟨⟨rfl, rfl⟩, rfl⟩

/-- C7: whenever `load` gets past the filter form (postback succeeded and the
form is intact), the selections it has performed on the weeks list are exactly
the textual `*All Term Time` option followed by the values `' 1'`..`' 5'` and
`' 44'`..`' 52'`, in that order - both selection mechanisms, regardless of
whether the final navigation then succeeds. -/
theorem load_selects_weeks_twice (site : Site) (t : Timetable)
    (hpb : site.postbackOk = true) (hff : site.filterFormOk = true) :
    (Timetable.load site t).1.driver.lbWeeks =
      [Selection.byText "*All Term Time",
       Selection.byValue " 1", Selection.byValue " 2", Selection.byValue " 3",
       Selection.byValue " 4", Selection.byValue " 5",
       Selection.byValue " 44", Selection.byValue " 45", Selection.byValue " 46",
       Selection.byValue " 47", Selection.byValue " 48", Selection.byValue " 49",
       Selection.byValue " 50", Selection.byValue " 51", Selection.byValue " 52"] := by
  unfold Timetable.load
  rw [hpb, hff]
  cases hr : site.reachesTimetable <;> rfl

/-- Witness for C7: the week selections on a concrete intact site. -/
theorem load_selects_weeks_twice_witness :
    (Timetable.load scenarioSite initialTimetable).1.driver.lbWeeks =
      [Selection.byText "*All Term Time",
       Selection.byValue " 1", Selection.byValue " 2", Selection.byValue " 3",
       Selection.byValue " 4", Selection.byValue " 5",
       Selection.byValue " 44", Selection.byValue " 45", Selection.byValue " 46",
       Selection.byValue " 47", Selection.byValue " 48", Selection.byValue " 49",
       Selection.byValue " 50", Selection.byValue " 51", Selection.byValue " 52"] :=
  load_selects_weeks_twice scenarioSite initialTimetable rfl rfl

/-- The method `Timetable.login` never touches the `events` list. -/
lemma login_preserves_events (site : Site) (t : Timetable) (u p : String) :
    (Timetable.login site t u p).1.events = t.events := by
  unfold Timetable.login
  cases hpo : site.loginPageOk <;> cases hac : site.accepts u p <;> simp

/-- The method `Timetable.load` never touches the `events` list. -/
lemma load_preserves_events (site : Site) (t : Timetable) :
    (Timetable.load site t).1.events = t.events := by
  unfold Timetable.load
  cases hpo : site.postbackOk <;> cases hff : site.filterFormOk <;>
    cases hr : site.reachesTimetable <;> simp

/-- The method `Timetable.scrape` leaves the prior events in place and appends after
them, whether or not the row loop finished. -/
lemma scrape_events_append (site : Site) (t : Timetable) :
    (Timetable.scrape site t).1.events =
      t.events ++
        (scrapeRows (site.resultRows.filter (fun r => !r.isColumnTitles)) []).1 := by
  simp [Timetable.scrape, (scrapeRows_acc _ t.events).1]

/-- C8: no operation of the program modifies an `Event` after its
construction: `login` and `load` return the events sequence unchanged, and
after `scrape` every previously held event is still present, unmodified, at
its old position in the ordered sequence. -/
theorem events_immutable (site : Site) (t : Timetable) (u p : String) (i : Nat)
    (hi : i < t.events.length) :
    (Timetable.login site t u p).1.events = t.events ∧
      (Timetable.load site t).1.events = t.events ∧
      ∃ hi' : i < (Timetable.scrape site t).1.events.length,
        (Timetable.scrape site t).1.events.get ⟨i, hi'⟩ = t.events.get ⟨i, hi⟩ := by
  refine ⟨login_preserves_events site t u p, load_preserves_events site t, ?_⟩
  have h := scrape_events_append site t
  have hi' : i < (Timetable.scrape site t).1.events.length := by
    rw [h, List.length_append]
    omega
  refine ⟨hi', ?_⟩
  have hgoal :
      ∀ h2 : i < (t.events ++
          (scrapeRows (site.resultRows.filter (fun r => !r.isColumnTitles)) []).1).length,
        (t.events ++
            (scrapeRows (site.resultRows.filter (fun r => !r.isColumnTitles)) []).1).get
          ⟨i, h2⟩ = t.events.get ⟨i, hi⟩ := by
    intro h2
    simp [List.getElem_append_left hi]
  exact (List.get_of_eq h ⟨i, hi'⟩).trans (hgoal _)

/-- A `Timetable` already holding one (default-valued) event. -/
def oneEventTimetable : Timetable := { driver := {}, events := [{}] }

/-- Witness for C8: with one pre-existing event, each operation leaves it in
place unmodified at index zero. -/
theorem events_immutable_witness :
    (Timetable.login scenarioSite oneEventTimetable "abc123" "pw").1.events =
        oneEventTimetable.events ∧
      (Timetable.load scenarioSite oneEventTimetable).1.events =
        oneEventTimetable.events ∧
      ∃ hi' : 0 < (Timetable.scrape scenarioSite oneEventTimetable).1.events.length,
        (Timetable.scrape scenarioSite oneEventTimetable).1.events.get ⟨0, hi'⟩ =
          oneEventTimetable.events.get ⟨0, by decide⟩ :=
  events_immutable scenarioSite oneEventTimetable "abc123" "pw" 0 (by decide)

/-- C9: constructing an `Event` with fields omitted fills each omitted field
with its fixed default - date `''`, activity `'Untitled activity'`, type
`'Other'`, start `'9:00'`, end `'19:00'`, room `'TBC'`, staff `'TBC'`,
department `'N/A'` - independently per field: with everything omitted all
eight defaults apply, with any one field supplied the other seven keep their
defaults, and supplied values are stored verbatim. -/
theorem event_defaults :
    (({} : Event) =
        ⟨"", "Untitled activity", "Other", "9:00", "19:00", "TBC", "TBC", "N/A"⟩) ∧
      (∀ v, ({ date := v } : Event) =
        ⟨v, "Untitled activity", "Other", "9:00", "19:00", "TBC", "TBC", "N/A"⟩) ∧
      (∀ v, ({ activity := v } : Event) =
        ⟨"", v, "Other", "9:00", "19:00", "TBC", "TBC", "N/A"⟩) ∧
      (∀ v, ({ type := v } : Event) =
        ⟨"", "Untitled activity", v, "9:00", "19:00", "TBC", "TBC", "N/A"⟩) ∧
      (∀ v, ({ start := v } : Event) =
        ⟨"", "Untitled activity", "Other", v, "19:00", "TBC", "TBC", "N/A"⟩) ∧
      (∀ v, ({ end_ := v } : Event) =
        ⟨"", "Untitled activity", "Other", "9:00", v, "TBC", "TBC", "N/A"⟩) ∧
      (∀ v, ({ room := v } : Event) =
        ⟨"", "Untitled activity", "Other", "9:00", "19:00", v, "TBC", "N/A"⟩) ∧
      (∀ v, ({ staff := v } : Event) =
        ⟨"", "Untitled activity", "Other", "9:00", "19:00", "TBC", v, "N/A"⟩) ∧
      (∀ v, ({ department := v } : Event) =
        ⟨"", "Untitled activity", "Other", "9:00", "19:00", "TBC", "TBC", v⟩) ∧
      (∀ d a ty s e r st dep,
        ({ date := d, activity := a, type := ty, start := s, end_ := e, room := r,
           staff := st, department := dep } : Event) = ⟨d, a, ty, s, e, r, st, dep⟩) :=
  ⟨rfl, fun _ => rfl, fun _ => rfl, fun _ => rfl, fun _ => rfl, fun _ => rfl,
   fun _ => rfl, fun _ => rfl, fun _ => rfl, fun _ _ _ _ _ _ _ _ => rfl⟩

/-- C10: `login` and `load` leave the events list unchanged, and `scrape` only
appends: after one `scrape` the events are the old ones followed by a suffix,
and a second `scrape` appends a further suffix after both - nothing is ever
removed, reordered or overwritten. -/
theorem operations_frame_events (site : Site) (t : Timetable) (u p : String) :
    (Timetable.login site t u p).1.events = t.events ∧
      (Timetable.load site t).1.events = t.events ∧
      ∃ d1, (Timetable.scrape site t).1.events = t.events ++ d1 ∧
        ∃ d2, (Timetable.scrape site (Timetable.scrape site t).1).1.events =
          t.events ++ d1 ++ d2 := by
  refine ⟨login_preserves_events site t u p, load_preserves_events site t, ?_⟩
  refine ⟨_, scrape_events_append site t, ?_⟩
  refine ⟨(scrapeRows (site.resultRows.filter (fun r => !r.isColumnTitles)) []).1, ?_⟩
  rw [scrape_events_append site (Timetable.scrape site t).1,
      scrape_events_append site t]
